import Mathlib

/-!
Verification of the eemeter trace data model (`eemeter/structures/trace.py`)
and the seasonal model-data / formula construction pipeline
(`eemeter/modeling/models/seasonal.py`) against their specification.

The Python code is shallowly embedded: numeric cell values are rationals,
missing values (NaN) are `Option`, raised exceptions are `Except.error` with
an explicitly modelled `PyError`, and pandas tables are lists of labelled
columns or of rows.  Each definition is translated from the source file it
names; external collaborators (the `holidays` package, record serializers)
appear as explicit function parameters.
-/

namespace Eemeter

/-- Python exceptions raised by the embedded code.  `valueError` carries the
message built at the raise site (format interpolation is simplified to plain
concatenation); `nameError` carries the unresolvable name; `attributeError`
the missing attribute. -/
inductive PyError where
  | nameError (nm : String)
  | valueError (msg : String)
  | attributeError (nm : String)
deriving DecidableEq, Repr

instance {ε α : Type} [DecidableEq ε] [DecidableEq α] :
    DecidableEq (Except ε α) := fun a b =>
  match a, b with
  | .ok x, .ok y =>
    if h : x = y then .isTrue (congrArg Except.ok h)
    else .isFalse (fun hh => h (Except.ok.inj hh))
  | .error x, .error y =>
    if h : x = y then .isTrue (congrArg Except.error h)
    else .isFalse (fun hh => h (Except.error.inj hh))
  | .ok _, .error _ => .isFalse (fun hh => Except.noConfusion hh)
  | .error _, .ok _ => .isFalse (fun hh => Except.noConfusion hh)

/-! ## trace.py: unit normalization

`EnergyTrace.UNIT_NORMALIZATION` (trace.py lines 108-157) is a dict from raw
unit string to a target unit and a multiplier.  It is embedded as an
association list; the Python dict has pairwise distinct keys, so
`List.lookup` agrees with dict indexing. -/

/-- The fixed case-sensitive normalization table of trace.py lines 108-157:
key, target unit, multiplier (0.001 is the rational 1/1000). -/
def UNIT_NORMALIZATION : List (String × String × ℚ) :=
  [("kwh", ("KWH", 1)),
   ("kWh", ("KWH", 1)),
   ("KWH", ("KWH", 1)),
   ("therm", ("THERM", 1)),
   ("therms", ("THERM", 1)),
   ("thm", ("THERM", 1)),
   ("THERM", ("THERM", 1)),
   ("THERMS", ("THERM", 1)),
   ("THM", ("THERM", 1)),
   ("wh", ("KWH", 1 / 1000)),
   ("Wh", ("KWH", 1 / 1000)),
   ("WH", ("KWH", 1 / 1000))]

/-- Message of the ValueError raised at trace.py line 253-254 (the source
interpolates the offending unit into the message). -/
def unsupportedUnitMessage (u : String) : String := "Unsupported unit: " ++ u

/-- `EnergyTrace._set_unit` (trace.py lines 248-254): membership test in the
normalization dict, storing target unit and multiplier on a hit, raising
ValueError otherwise.  The `unit` constructor argument defaults to Python
`None`, which is never a dict key, hence `none` falls to the raise branch
(Python renders `None` as the string "None" in the message). -/
def _set_unit (unit : Option String) : Except PyError (String × ℚ) :=
  match unit with
  | none => .error (.valueError (unsupportedUnitMessage "None"))
  | some u =>
    match UNIT_NORMALIZATION.lookup u with
    | some tm => .ok tm
    | none => .error (.valueError (unsupportedUnitMessage u))

/-! ### Association-list lookup lemmas -/

theorem lookup_eq_some_iff {β : Type} (l : List (String × β))
    (hnd : (l.map Prod.fst).Nodup) (a : String) (b : β) :
    l.lookup a = some b ↔ (a, b) ∈ l := by
  induction l with
  | nil => simp [List.lookup]
  | cons hd tl ih =>
    obtain ⟨k, v⟩ := hd
    simp only [List.map_cons, List.nodup_cons] at hnd
    by_cases hak : a = k
    · subst hak
      simp only [List.lookup, beq_self_eq_true, List.mem_cons, Prod.mk.injEq, true_and]
      constructor
      · intro hv
        exact Or.inl (by simpa using hv.symm)
      · rintro (rfl | hmem)
        · rfl
        · exact absurd (List.mem_map_of_mem Prod.fst hmem) hnd.1
    · have hbeq : (a == k) = false := beq_false_of_ne hak
      simp only [List.lookup, hbeq, List.mem_cons, Prod.mk.injEq]
      rw [ih hnd.2]
      constructor
      · exact Or.inr
      · rintro (⟨rfl, rfl⟩ | hmem)
        · exact absurd rfl hak
        · exact hmem

theorem lookup_eq_none_of_not_mem {β : Type} (l : List (String × β))
    (a : String) (h : a ∉ l.map Prod.fst) : l.lookup a = none := by
  induction l with
  | nil => rfl
  | cons hd tl ih =>
    obtain ⟨k, v⟩ := hd
    simp only [List.map_cons, List.mem_cons] at h
    push_neg at h
    have hbeq : (a == k) = false := beq_false_of_ne h.1
    simp only [List.lookup, hbeq]
    exact ih h.2

/-- Claim C6: for every raw unit string, `_set_unit` succeeds exactly on the
twelve enumerated case-sensitive keys of `UNIT_NORMALIZATION`, returning the
tabulated canonical unit and multiplier, and raises the unsupported-unit
ValueError for every string outside the table (no case-folding beyond the
enumerated variants). -/
theorem set_unit_characterization :
    (∀ (u : String) (r : String × ℚ),
        _set_unit (some u) = Except.ok r ↔ (u, r) ∈ UNIT_NORMALIZATION) ∧
    (∀ u : String, u ∉ UNIT_NORMALIZATION.map Prod.fst →
        _set_unit (some u) =
          Except.error (PyError.valueError (unsupportedUnitMessage u))) := by
  constructor
  · intro u r
    rw [← lookup_eq_some_iff UNIT_NORMALIZATION (by decide) u r]
    unfold _set_unit
    cases h : UNIT_NORMALIZATION.lookup u <;> simp [h]
  · intro u hu
    have h := lookup_eq_none_of_not_mem UNIT_NORMALIZATION u hu
    simp [_set_unit, h]

/-- Witness for C6: the string BTU is outside the table and is rejected with
the unsupported-unit error. -/
theorem set_unit_characterization_witness :
    "BTU" ∉ UNIT_NORMALIZATION.map Prod.fst ∧
    _set_unit (some "BTU") =
      Except.error (PyError.valueError (unsupportedUnitMessage "BTU")) :=
  ⟨by decide, set_unit_characterization.2 "BTU" (by decide)⟩

/-! ## trace.py: EnergyTrace construction

`EnergyTrace.__init__` validates the interpretation, then dispatches on the
supplied argument combination in `_set_data` (trace.py lines 197-246).
Tables are lists of labelled columns plus a flag recording whether the index
is a `pandas.DatetimeIndex`; cell values are rationals (the claims never
inspect the `estimated` booleans, which are coerced like numbers).  `records`
are opaque to this code (they are passed unread to the serializer), so they
are a type parameter. -/

/-- A pandas DataFrame as this code observes it: whether its index is a
DatetimeIndex, and its ordered, labelled columns. -/
structure RawTable where
  isDatetimeIndex : Bool
  cols : List (String × List ℚ)
deriving DecidableEq, Repr

/-- The attributes `_set_data` assigns on the EnergyTrace instance. -/
structure TraceState where
  data : Option RawTable
  unit : Option String
  unit_multiplier : Option ℚ
  placeholder : Bool
deriving DecidableEq, Repr

/-- The fixed closed set of interpretations (trace.py lines 159-167). -/
def INTERPRETATIONS : List String :=
  ["ELECTRICITY_CONSUMPTION_SUPPLIED",
   "ELECTRICITY_CONSUMPTION_TOTAL",
   "ELECTRICITY_CONSUMPTION_NET",
   "ELECTRICITY_ON_SITE_GENERATION_TOTAL",
   "ELECTRICITY_ON_SITE_GENERATION_CONSUMED",
   "ELECTRICITY_ON_SITE_GENERATION_UNCONSUMED",
   "NATURAL_GAS_CONSUMPTION_SUPPLIED"]

/-- `EnergyTrace._set_interpretation` (trace.py lines 187-195). -/
def _set_interpretation (interp : String) : Except PyError String :=
  if interp ∈ INTERPRETATIONS then .ok interp
  else .error (.valueError ("Unsupported interpretation: " ++ interp))

/-- Message of the ValueError raised at trace.py lines 213-217 when `data`
is not indexed by a DatetimeIndex. -/
def malformedIndexMessage : String :=
  "data must be indexed with a pandas.DatetimeIndex."

/-- Message of the ValueError raised at trace.py lines 219-224 when `data`
does not have exactly the columns value and estimated (pandas raises its own
ValueError for the elementwise comparison when the column count differs; in
either case construction fails with a ValueError). -/
def malformedColumnsMessage : String :=
  "The DataFrame supplied in data must have the columns value and estimated."

/-- Message of the ValueError raised at trace.py lines 226-242 when the
supplied argument combination fits none of the three construction paths
(the source interpolates the supplied arguments into the message). -/
def invalidConstructionMessage : String :=
  "EnergyTrace objects must be initialized in one of the following ways," ++
  " with unused attributes left at their default values:" ++
  " 1) by supplying a DatetimeIndexed DataFrame with the columns value and" ++
  " estimated using the data argument," ++
  " 2) by supplying records and a serializer that can read those records," ++
  " or 3) by setting placeholder to True." ++
  " The supplied arguments fit none of these options."

/-- Shared tail of `_set_data` (trace.py lines 244-245): store the table and
rescale its value column in place, `self.data.value = data.value *
self.unit_multiplier`.  Reading `data.value` raises AttributeError when the
table has no value column; otherwise the (first) value column is replaced by
its elementwise product with the multiplier. -/
def scaleValueColumn (t : RawTable) (m : ℚ) : Except PyError RawTable :=
  match t.cols.lookup "value" with
  | none => .error (.attributeError "value")
  | some v =>
    .ok { t with
          cols := t.cols.map (fun p =>
            if p.1 = "value" then (p.1, v.map (fun x => x * m)) else p) }

/-- `EnergyTrace._set_data` (trace.py lines 197-246).  The three branch
guards of the source are mutually exclusive pattern matches on
(placeholder, data, records, serializer); every other combination reaches
the final raise.  Inside the record branch the unit is normalized before the
serializer runs, matching the statement order of the source. -/
def _set_data {R : Type} (data : Option RawTable) (records : Option R)
    (unit : Option String) (placeholder : Bool)
    (serializer : Option (R → RawTable)) : Except PyError TraceState :=
  match placeholder, data, records, serializer with
  | true, none, none, none =>
    .ok { data := none, unit := none, unit_multiplier := none,
          placeholder := true }
  | false, none, some r, some s =>
    match _set_unit unit with
    | .error e => .error e
    | .ok (tu, m) =>
      match scaleValueColumn (s r) m with
      | .error e => .error e
      | .ok t =>
        .ok { data := some t, unit := some tu, unit_multiplier := some m,
              placeholder := false }
  | false, some t0, none, none =>
    match _set_unit unit with
    | .error e => .error e
    | .ok (tu, m) =>
      if !t0.isDatetimeIndex then
        .error (.valueError malformedIndexMessage)
      else if t0.cols.map Prod.fst ≠ ["value", "estimated"] then
        .error (.valueError malformedColumnsMessage)
      else
        match scaleValueColumn t0 m with
        | .error e => .error e
        | .ok t =>
          .ok { data := some t, unit := some tu, unit_multiplier := some m,
                placeholder := false }
  | _, _, _, _ => .error (.valueError invalidConstructionMessage)

/-- `EnergyTrace.__init__` (trace.py lines 169-173): interpretation
validation followed by `_set_data`; the result pairs the stored
interpretation with the data-related attributes. -/
def EnergyTrace_init {R : Type} (interpretation : String)
    (data : Option RawTable) (records : Option R) (unit : Option String)
    (placeholder : Bool) (serializer : Option (R → RawTable)) :
    Except PyError (String × TraceState) :=
  match _set_interpretation interpretation with
  | .error e => .error e
  | .ok interp =>
    match _set_data data records unit placeholder serializer with
    | .error e => .error e
    | .ok st => .ok (interp, st)

theorem lookup_map_replace (cols : List (String × List ℚ)) (v w : List ℚ)
    (h : cols.lookup "value" = some v) :
    (cols.map (fun p => if p.1 = "value" then (p.1, w) else p)).lookup "value" =
      some w := by
  induction cols with
  | nil => simp [List.lookup] at h
  | cons hd tl ih =>
    obtain ⟨k, c⟩ := hd
    by_cases hk : k = "value"
    · subst hk
      simp [List.lookup]
    · have hbeq : ("value" == k) = false := beq_false_of_ne (Ne.symm hk)
      simp only [List.lookup, hbeq] at h
      simp only [List.map_cons]
      rw [if_neg (show ¬ ((k, c).1 = "value") from hk)]
      simp only [List.lookup, hbeq]
      exact ih h

theorem scaleValueColumn_lookup (t : RawTable) (m : ℚ) (v : List ℚ)
    (hv : t.cols.lookup "value" = some v) :
    ∃ t', scaleValueColumn t m = Except.ok t' ∧
      t'.cols.lookup "value" = some (v.map (fun x => x * m)) := by
  unfold scaleValueColumn
  rw [hv]
  exact ⟨_, rfl, lookup_map_replace t.cols v _ hv⟩

/-- Claim C7: `_set_data` succeeds only under one of the three mutually
exclusive argument patterns — (a) a table plus a normalizable unit with
records and serializer absent and placeholder false; (b) records plus
serializer plus a normalizable unit with data absent and placeholder false;
(c) placeholder true with data, records and serializer all absent — and for
every other combination of supplied arguments it fails with the
invalid-construction-arguments ValueError.  In particular any two or more of
the three paths supplied simultaneously fall into the final raise. -/
theorem set_data_construction_paths :
    ∀ (R : Type) (data : Option RawTable) (records : Option R)
      (unit : Option String) (placeholder : Bool)
      (serializer : Option (R → RawTable)),
    ((∃ st, _set_data data records unit placeholder serializer = Except.ok st) →
      (placeholder = true ∧ data = none ∧ records = none ∧ serializer = none) ∨
      (placeholder = false ∧ data = none ∧ records ≠ none ∧ serializer ≠ none ∧
        ∃ r, _set_unit unit = Except.ok r) ∨
      (placeholder = false ∧ data ≠ none ∧ records = none ∧ serializer = none ∧
        ∃ r, _set_unit unit = Except.ok r)) ∧
    (¬ ((placeholder = true ∧ data = none ∧ records = none ∧ serializer = none) ∨
        (placeholder = false ∧ data = none ∧ records ≠ none ∧ serializer ≠ none) ∨
        (placeholder = false ∧ data ≠ none ∧ records = none ∧ serializer = none)) →
      _set_data data records unit placeholder serializer =
        Except.error (PyError.valueError invalidConstructionMessage)) := by
  intro R data records unit placeholder serializer
  cases placeholder <;> cases data <;> cases records <;> cases serializer
  case false.none.some.some r s =>
    constructor
    · rintro ⟨st, hs⟩
      refine Or.inr (Or.inl ⟨rfl, rfl, by simp, by simp, ?_⟩)
      simp only [_set_data] at hs
      split at hs
      · exact absurd hs (by simp)
      · next tu m heq => exact ⟨(tu, m), heq⟩
    · intro h
      exact absurd (Or.inr (Or.inl ⟨rfl, rfl, by simp, by simp⟩)) h
  case false.some.none.none t =>
    constructor
    · rintro ⟨st, hs⟩
      refine Or.inr (Or.inr ⟨rfl, by simp, rfl, rfl, ?_⟩)
      simp only [_set_data] at hs
      split at hs
      · exact absurd hs (by simp)
      · next tu m heq => exact ⟨(tu, m), heq⟩
    · intro h
      exact absurd (Or.inr (Or.inr ⟨rfl, by simp, rfl, rfl⟩)) h
  case true.none.none.none =>
    exact ⟨fun _ => Or.inl ⟨rfl, rfl, rfl, rfl⟩,
      fun h => absurd (Or.inl ⟨rfl, rfl, rfl, rfl⟩) h⟩
  all_goals
    exact ⟨fun ⟨st, hs⟩ => by simp [_set_data] at hs, fun _ => rfl⟩

/-- Witness for C7: supplying a table together with placeholder = true fits
none of the three construction paths and is rejected with the
invalid-construction-arguments error. -/
theorem set_data_construction_paths_witness :
    _set_data (R := Unit) (some ⟨true, []⟩) none (some "kwh") true none =
      Except.error (PyError.valueError invalidConstructionMessage) :=
  (set_data_construction_paths Unit (some ⟨true, []⟩) none (some "kwh") true
    none).2 (by simp)

/-- Claim C8: every successful construction on the direct-table path stores
the table with its value column rescaled elementwise by the normalization
multiplier of the supplied unit, exactly once, at construction time. -/
theorem set_data_value_column_scaled :
    ∀ (R : Type) (t : RawTable) (unit : Option String) (st : TraceState)
      (v : List ℚ),
    _set_data (R := R) (some t) none unit false none = Except.ok st →
    t.cols.lookup "value" = some v →
    ∃ (tu : String) (m : ℚ) (t' : RawTable),
      _set_unit unit = Except.ok (tu, m) ∧
      st = { data := some t', unit := some tu, unit_multiplier := some m,
             placeholder := false } ∧
      t'.cols.lookup "value" = some (v.map (fun x => x * m)) := by
  intro R t unit st v hs hv
  simp only [_set_data] at hs
  split at hs
  · exact absurd hs (by simp)
  next tu m hu =>
    split at hs
    · exact absurd hs (by simp)
    · split at hs
      · exact absurd hs (by simp)
      · split at hs
        · exact absurd hs (by simp)
        next t' hscale =>
          obtain ⟨t2, hscale2, hlook⟩ := scaleValueColumn_lookup t m v hv
          rw [hscale] at hscale2
          cases hscale2
          exact ⟨tu, m, t', hu, (Except.ok.inj hs).symm, hlook⟩

/-- A concrete well-formed input table used to witness C8. -/
def witnessTable : RawTable :=
  ⟨true, [("value", [2, 3]), ("estimated", [0, 1])]⟩

/-- The trace state stored for `witnessTable` with raw unit wh
(multiplier 1/1000). -/
def witnessScaledState : TraceState :=
  { data := some ⟨true, [("value", [1 / 500, 3 / 1000]), ("estimated", [0, 1])]⟩,
    unit := some "KWH", unit_multiplier := some (1 / 1000),
    placeholder := false }

/-- Witness for C8: constructing from a table with value column [2, 3] and
raw unit wh stores value column [2/1000, 3/1000]. -/
theorem set_data_value_column_scaled_witness :
    _set_data (R := Unit) (some witnessTable) none (some "wh") false none =
      Except.ok witnessScaledState ∧
    witnessTable.cols.lookup "value" = some [2, 3] ∧
    ∃ (tu : String) (m : ℚ) (t' : RawTable),
      _set_unit (some "wh") = Except.ok (tu, m) ∧
      witnessScaledState =
        { data := some t', unit := some tu, unit_multiplier := some m,
          placeholder := false } ∧
      t'.cols.lookup "value" = some ([2, 3].map (fun x => x * m)) :=
by
  have hu : _set_unit (some "wh") = Except.ok ("KWH", 1 / 1000) := rfl
  have hv : witnessTable.cols.lookup "value" = some [2, 3] := by decide
  have hscale : scaleValueColumn witnessTable (1 / 1000) =
      Except.ok ⟨true, [("value", [1 / 500, 3 / 1000]), ("estimated", [0, 1])]⟩ := by
    unfold scaleValueColumn
    rw [hv]
    dsimp only [witnessTable, List.map_cons, List.map_nil]
    rw [if_pos (show (("value", [(2 : ℚ), 3]) : String × List ℚ).1 = "value"
      from rfl)]
    rw [if_neg (show
      ¬ ((("estimated", [(0 : ℚ), 1]) : String × List ℚ).1 = "value")
      by decide)]
    norm_num
  have hEval : _set_data (R := Unit) (some witnessTable) none (some "wh")
      false none = Except.ok witnessScaledState := by
    unfold _set_data
    rw [hu]
    dsimp only
    rw [if_neg (show ¬ ((!witnessTable.isDatetimeIndex) = true) by decide)]
    rw [if_neg (show ¬ (witnessTable.cols.map Prod.fst ≠ ["value", "estimated"])
      by decide)]
    rw [hscale]
    rfl
  exact ⟨hEval, hv,
    set_data_value_column_scaled Unit witnessTable (some "wh")
      witnessScaledState [2, 3] hEval hv⟩

/-- A serializer output whose index is not a DatetimeIndex. -/
def noDatetimeTable : RawTable := ⟨false, [("value", [1]), ("estimated", [0])]⟩

/-- A serializer output with a column set different from
[value, estimated]. -/
def extraColumnsTable : RawTable :=
  ⟨true, [("value", [1]), ("estimated", [0]), ("extra", [2])]⟩

/-- Claim C10: the records + serializer path stores the serializer output
without shape validation — a table lacking a DatetimeIndex, or one with
extra columns, is accepted there — while the same tables are rejected with
the malformed-table errors on the direct-data path, where those checks
live. -/
theorem serializer_output_not_validated :
    (∃ st, _set_data (R := Unit) none (some ()) (some "kwh") false
        (some (fun _ => noDatetimeTable)) = Except.ok st) ∧
    (∃ st, _set_data (R := Unit) none (some ()) (some "kwh") false
        (some (fun _ => extraColumnsTable)) = Except.ok st) ∧
    _set_data (R := Unit) (some noDatetimeTable) none (some "kwh") false none =
      Except.error (PyError.valueError malformedIndexMessage) ∧
    _set_data (R := Unit) (some extraColumnsTable) none (some "kwh") false
        none =
      Except.error (PyError.valueError malformedColumnsMessage) :=
  ⟨⟨_, rfl⟩, ⟨_, rfl⟩, rfl, rfl⟩

/-! ## trace.py: EnergyTraceSet -/

/-- Python decimal stringification of a natural number, as `str(i)` renders
it when default labels are generated: base-10 digits, most significant
first, and the single character 0 for zero. -/
def pyStr (n : Nat) : String :=
  String.mk
    (if n = 0 then ['0'] else ((Nat.digits 10 n).map Nat.digitChar).reverse)

/-- `EnergyTraceSet._generate_default_labels` (trace.py lines 292-293):
the stringified positional index of each trace. -/
def _generate_default_labels {T : Type} (traces : List T) : List String :=
  traces.enum.map (fun p => pyStr p.1)

/-- The `traces` argument of `EnergyTraceSet.__init__`: either a dict (an
insertion-ordered label-to-trace mapping) or a plain sequence. -/
inductive TracesArg (T : Type) where
  | dict (d : List (String × T))
  | seq (l : List T)

/-- A constructed EnergyTraceSet: the insertion-ordered label-to-trace
mapping, and whether the ignoring-labels warning was emitted (trace.py
lines 271-276; the warning is advisory, not an error). -/
structure EnergyTraceSet (T : Type) where
  traces : List (String × T)
  warned : Bool

/-- Message of the ValueError raised by `_validate_lengths` (trace.py
lines 295-303). -/
def labelCountMessage : String :=
  "Should be the same number of labels as traces."

/-- Message of the ValueError raised by `_validate_uniqueness` (trace.py
lines 305-312); the Python condition compares the label count with the
cardinality of the label set, which differ exactly when the list has a
duplicate. -/
def duplicateLabelsMessage : String :=
  "Labels should be unique."

/-- `EnergyTraceSet.__init__` (trace.py lines 268-287): a dict passes
through unchanged (warning if labels were also given); a sequence gets
default labels when none are supplied, then length and uniqueness are
validated and the mapping is built from `zip(labels, traces)`. -/
def EnergyTraceSet_init {T : Type} (traces : TracesArg T)
    (labels : Option (List String)) : Except PyError (EnergyTraceSet T) :=
  match traces with
  | .dict d => .ok ⟨d, labels.isSome⟩
  | .seq l =>
    let ls := match labels with
      | none => _generate_default_labels l
      | some given => given
    if l.length ≠ ls.length then .error (.valueError labelCountMessage)
    else if ¬ ls.Nodup then .error (.valueError duplicateLabelsMessage)
    else .ok ⟨ls.zip l, false⟩

theorem digitChar_inj_lt :
    ∀ a b : Fin 10, Nat.digitChar a.val = Nat.digitChar b.val →
      a.val = b.val := by decide

theorem map_digitChar_inj :
    ∀ l1 l2 : List Nat, (∀ x ∈ l1, x < 10) → (∀ x ∈ l2, x < 10) →
      l1.map Nat.digitChar = l2.map Nat.digitChar → l1 = l2 := by
  intro l1
  induction l1 with
  | nil =>
    intro l2 _ _ h
    cases l2 with
    | nil => rfl
    | cons b t2 => simp at h
  | cons a t ih =>
    intro l2 h1 h2 h
    cases l2 with
    | nil => simp at h
    | cons b t2 =>
      simp only [List.map_cons, List.cons.injEq] at h
      have ha : a < 10 := h1 a (List.mem_cons_self a t)
      have hb : b < 10 := h2 b (List.mem_cons_self b t2)
      have hab : a = b := digitChar_inj_lt ⟨a, ha⟩ ⟨b, hb⟩ h.1
      have ht : t = t2 := ih t2 (fun x hx => h1 x (List.mem_cons_of_mem a hx))
        (fun x hx => h2 x (List.mem_cons_of_mem b hx)) h.2
      rw [hab, ht]

theorem digits_map_digitChar_ne_zero_char (n : Nat) (hn : n ≠ 0) :
    ((Nat.digits 10 n).map Nat.digitChar).reverse ≠ ['0'] := by
  intro hcontra
  have hmap : (Nat.digits 10 n).map Nat.digitChar = ['0'] := by
    have := congrArg List.reverse hcontra
    simpa using this
  cases hd : Nat.digits 10 n with
  | nil => rw [hd] at hmap; simp at hmap
  | cons d t =>
    rw [hd] at hmap
    cases t with
    | cons d2 t2 => simp at hmap
    | nil =>
      simp only [List.map_cons, List.map_nil, List.cons.injEq] at hmap
      have hdlt : d < 10 :=
        Nat.digits_lt_base (by norm_num) (hd ▸ List.mem_cons_self d [])
      have hd0 : d = 0 :=
        digitChar_inj_lt ⟨d, hdlt⟩ ⟨0, by norm_num⟩ (by simpa using hmap.1)
      have hofd := Nat.ofDigits_digits 10 n
      rw [hd, hd0] at hofd
      exact hn (by simpa using hofd.symm)

theorem pyStr_injective : Function.Injective pyStr := by
  intro m n h
  have hdata := congrArg String.data h
  simp only [pyStr] at hdata
  by_cases hm : m = 0 <;> by_cases hn : n = 0
  · rw [hm, hn]
  · rw [if_pos hm, if_neg hn] at hdata
    exact absurd hdata.symm (digits_map_digitChar_ne_zero_char n hn)
  · rw [if_neg hm, if_pos hn] at hdata
    exact absurd hdata (digits_map_digitChar_ne_zero_char m hm)
  · rw [if_neg hm, if_neg hn] at hdata
    have hrev := congrArg List.reverse hdata
    simp only [List.reverse_reverse] at hrev
    have hdig := map_digitChar_inj _ _
      (fun x hx => Nat.digits_lt_base (by norm_num) hx)
      (fun x hx => Nat.digits_lt_base (by norm_num) hx) hrev
    exact Nat.digits.injective 10 hdig

theorem generate_default_labels_eq {T : Type} (l : List T) :
    _generate_default_labels l = (List.range l.length).map pyStr := by
  unfold _generate_default_labels
  have : (fun p : Nat × T => pyStr p.1) = pyStr ∘ Prod.fst := rfl
  rw [this, ← List.map_map, List.enum_map_fst]

/-- Claim C9: an EnergyTraceSet built from a plain sequence of N traces
with no labels constructs successfully, with labels the stringified
positional indices 0 .. N-1, each paired with the trace at that position
(`pyStr` is the embedded `str`; its first values are the literal strings
shown). -/
theorem trace_set_default_labels :
    (∀ (T : Type) (l : List T),
      EnergyTraceSet_init (TracesArg.seq l) none =
        Except.ok ⟨((List.range l.length).map pyStr).zip l, false⟩) ∧
    pyStr 0 = "0" ∧ pyStr 1 = "1" ∧ pyStr 2 = "2" ∧ pyStr 10 = "10" := by
  refine ⟨?_, by decide, ?_, ?_, ?_⟩
  rotate_left
  · show pyStr 1 = "1"
    have h : Nat.digits 10 1 = [1] := by simp
    simp [pyStr, h]
    rfl
  · show pyStr 2 = "2"
    have h : Nat.digits 10 2 = [2] := by norm_num
    simp [pyStr, h]
    rfl
  · show pyStr 10 = "10"
    have h : Nat.digits 10 10 = [0, 1] := by simp
    simp [pyStr, h]
    rfl
  intro T l
  unfold EnergyTraceSet_init
  dsimp only
  rw [generate_default_labels_eq]
  rw [if_neg (show ¬ (l.length ≠ ((List.range l.length).map pyStr).length)
    by simp)]
  rw [if_neg (not_not_intro
    ((List.nodup_range l.length).map pyStr_injective))]

/-! ## seasonal.py: SeasonalElasticNetCVModel

The date index of a daily model-data table is embedded as a list of
absolute day numbers (days since 1970-01-01); input timestamps are minutes
since that epoch.  `index.month` and `index.weekday` are the Gregorian
calendar month (1..12) and the pandas weekday (Monday = 0) of a day
number.  The external `holidays` package object is a lookup from day
number to an optional raw holiday name; `holidays.UnitedStates()` is an
explicit parameter `usHolidays` wherever the source constructs it. -/

/-- A holiday calendar object: its `get(dt, default)` capability is a
lookup returning an optional raw name. -/
abbrev HolidayCalendar : Type := Int → Option String

/-- The instance state of `SeasonalElasticNetCVModel` used by the embedded
methods: the degree-day base temperatures and the optional custom holiday
calendar from `__init__` (seasonal.py lines 23-30), and the `base_formula`
attribute inherited from `ElasticNetCVBaseModel` (outside this
repository's sources; it is carried as opaque data). -/
structure SeasonalElasticNetCVModel where
  cooling_base_temp : ℚ
  heating_base_temp : ℚ
  custom_holidays : Option HolidayCalendar
  base_formula : String

/-- Gregorian calendar month (1..12) of an absolute day number, the
embedding of `index.month` (standard civil-from-days conversion; all
intermediate quotients are of non-negative values, so truncating division
agrees with floor division). -/
def monthOf (z : Int) : Int :=
  let days := z + 719468
  let era := days.fdiv 146097
  let doe := days - era * 146097
  let yoe := (doe - doe / 1460 + doe / 36524 - doe / 146096) / 365
  let doy := doe - (365 * yoe + yoe / 4 - yoe / 100)
  let mp := (5 * doy + 2) / 153
  if mp < 10 then mp + 3 else mp - 9

/-- Pandas weekday (Monday = 0) of an absolute day number: day 0
(1970-01-01) was a Thursday, weekday 3. -/
def weekdayOf (z : Int) : Int := (z + 3).emod 7

/-- `len(np.unique(xs))`: the number of distinct values of a sequence. -/
def uniqueCount {α : Type} [DecidableEq α] (xs : List α) : Nat :=
  xs.dedup.length

/-- The model-data table of the seasonal model: a daily DatetimeIndex (as
absolute day numbers) with the energy, tempF, CDD and HDD columns, plus
the optional holiday_name column attached by `_patsy_formula` when the
holiday gate fires. -/
structure ModelData where
  index : List Int
  energy : List ℚ
  tempF : List ℚ
  CDD : List ℚ
  HDD : List ℚ
  holiday_name : Option (List String)
deriving DecidableEq, Repr

/-- `clean_holiday_name` (seasonal.py lines 100-105): look the date up in
the calendar with default "none", and strip a trailing " (Observed)"
(11 characters, `raw_name[:-11]`). -/
def clean_holiday_name (holidays_raw : HolidayCalendar) (dt : Int) : String :=
  let raw_name := (holidays_raw dt).getD "none"
  if raw_name.endsWith " (Observed)" then raw_name.dropRight 11
  else raw_name

/-- The body of `_holidays_indexed` (seasonal.py lines 94-109) as a
function of the bindings its free names resolve to: `dt_index` is the
parameter, `usHolidays` the external `holidays.UnitedStates()` collaborator,
and `selfBinding` the resolution of the free name `self` (`none` when no
scope binds it).  The first statement evaluates `self.custom_holidays`,
which raises NameError if `self` is unbound; otherwise the calendar is
chosen and every index entry is mapped through `clean_holiday_name`. -/
def holidaysIndexedBody (usHolidays : HolidayCalendar)
    (selfBinding : Option SeasonalElasticNetCVModel) (dt_index : List Int) :
    Except PyError (List String) :=
  match selfBinding with
  | none => .error (.nameError "self")
  | some self =>
    let holidays_raw :=
      match self.custom_holidays with
      | none => usHolidays
      | some c => c
    .ok (dt_index.map (clean_holiday_name holidays_raw))

/-- `_holidays_indexed` (seasonal.py lines 93-109).  It is declared
`@staticmethod` with the single parameter `dt_index`; no enclosing scope
and no module global binds the name `self`, so the free `self` in its body
is unbound and the body runs with `selfBinding = none`. -/
def _holidays_indexed (usHolidays : HolidayCalendar) (dt_index : List Int) :
    Except PyError (List String) :=
  holidaysIndexedBody usHolidays none dt_index

/-- The month term group appended at seasonal.py lines 71-75 (three
adjacent string literals concatenated). -/
def monthTerms : String :=
  " + CDD * C(tempF.index.month)" ++
  " + HDD * C(tempF.index.month)" ++
  " + C(tempF.index.month)"

/-- The weekday term group appended at seasonal.py lines 78-82. -/
def weekdayTerms : String :=
  " + (CDD) * C(tempF.index.weekday)" ++
  " + (HDD) * C(tempF.index.weekday)" ++
  " + C(tempF.index.weekday)"

/-- The holiday term appended at seasonal.py line 90. -/
def holidayTerm : String := " + C(holiday_name)"

/-- The pure part of `_patsy_formula` before the holiday lookup
(seasonal.py lines 66-82): start from the base formula and append the
month and weekday term groups, each gated on the count of distinct values
in the index. -/
def formulaPrefix (self : SeasonalElasticNetCVModel) (md : ModelData) :
    String :=
  let formula := self.base_formula
  let formula :=
    if uniqueCount (md.index.map monthOf) ≥ 12 then formula ++ monthTerms
    else formula
  if uniqueCount (md.index.map weekdayOf) ≥ 7 then formula ++ weekdayTerms
  else formula

/-- `_patsy_formula` (seasonal.py lines 64-91).  After the month and
weekday gates, line 84 calls `self._holidays_indexed(model_data.index)`;
if that raises, the exception propagates and the caller's table is left as
it was.  Otherwise the holiday gate compares the number of distinct
holiday labels with 11, and when it fires the source calls
`_holidays_indexed` a second time (line 88) and assigns the result as a
new holiday_name column of the caller's table in place.  The result pairs
the outcome (formula string or exception) with the table as the call
leaves it. -/
def _patsy_formula (usHolidays : HolidayCalendar)
    (self : SeasonalElasticNetCVModel) (model_data : ModelData) :
    Except PyError String × ModelData :=
  let formula := formulaPrefix self model_data
  match _holidays_indexed usHolidays model_data.index with
  | .error e => (.error e, model_data)
  | .ok holiday_names =>
    if uniqueCount holiday_names = 11 then
      match _holidays_indexed usHolidays model_data.index with
      | .error e => (.error e, model_data)
      | .ok names2 =>
        (.ok (formula ++ holidayTerm),
         { model_data with holiday_name := some names2 })
    else (.ok formula, model_data)

/-! ### seasonal.py: the model-data builder

`_model_data_from_input_data` (seasonal.py lines 42-62) resamples the
input table to daily frequency with `{'energy': np.sum, 'tempF':
np.mean}`, drops rows with a NaN aggregate, raises on emptiness, and adds
the CDD/HDD columns.  Input rows carry a timestamp in minutes and optional
(NaN-able) energy and tempF cells.  Pandas of this code's era aggregates a
resample bucket by skipping NaN cells, and yields NaN for a bucket with no
non-NaN cell; the resampler emits one daily bucket for every day between
the first and last timestamp, so a day without samples is an all-NaN row
which `dropna` removes. -/

/-- One row of the input table: a timestamp in minutes since the epoch and
the energy and tempF cells (`none` = NaN). -/
structure InputRow where
  t : Int
  energy : Option ℚ
  tempF : Option ℚ
deriving DecidableEq, Repr

/-- The daily bucket of a timestamp: midnight-aligned floor to days. -/
def dayOf (t : Int) : Int := t.fdiv 1440

/-- The input rows falling in the daily bucket of day `d`. -/
def samplesOn (input : List InputRow) (d : Int) : List InputRow :=
  input.filter (fun r => dayOf r.t = d)

/-- The `np.sum` aggregate of the energy column over one daily bucket:
the sum of the non-NaN cells, NaN when there is none. -/
def sumAggOn (input : List InputRow) (d : Int) : Option ℚ :=
  let vs := (samplesOn input d).filterMap (fun r => r.energy)
  if vs.isEmpty then none else some vs.sum

/-- The `np.mean` aggregate of the tempF column over one daily bucket:
the mean of the non-NaN cells, NaN when there is none. -/
def meanAggOn (input : List InputRow) (d : Int) : Option ℚ :=
  let vs := (samplesOn input d).filterMap (fun r => r.tempF)
  if vs.isEmpty then none else some (vs.sum / vs.length)

/-- The days of the resampled index: every day from the first to the last
timestamp's bucket (empty input gives an empty index). -/
def dayRange (input : List InputRow) : List Int :=
  match input with
  | [] => []
  | r :: rs =>
    let ds := (r :: rs).map (fun x => dayOf x.t)
    let lo := ds.foldl min (dayOf r.t)
    let hi := ds.foldl max (dayOf r.t)
    (List.range (hi - lo + 1).toNat).map (fun i => lo + i)

/-- `input_data.resample(Day()).agg({'energy': np.sum, 'tempF': np.mean})`
(seasonal.py lines 44-47): one row per day in range, with the two
aggregates. -/
def resampleDaily (input : List InputRow) :
    List (Int × Option ℚ × Option ℚ) :=
  (dayRange input).map (fun d => (d, sumAggOn input d, meanAggOn input d))

/-- `model_data.dropna()` (seasonal.py line 49): keep the rows in which
both aggregates are defined. -/
def dropna (rows : List (Int × Option ℚ × Option ℚ)) :
    List (Int × ℚ × ℚ) :=
  rows.filterMap (fun x =>
    match x with
    | (d, some e, some tF) => some (d, e, tF)
    | _ => none)

/-- Message of the ValueError raised at seasonal.py lines 51-56. -/
def emptyModelDataMessage : String :=
  "No data left for model fit after resampling to daily and dropping NaN values."

/-- `_model_data_from_input_data` (seasonal.py lines 42-62): resample to
daily, drop NaN rows, raise on an empty result, then attach
`CDD = max(tempF - cooling_base_temp, 0)` and
`HDD = max(heating_base_temp - tempF, 0)` columns. -/
def _model_data_from_input_data (self : SeasonalElasticNetCVModel)
    (input_data : List InputRow) : Except PyError ModelData :=
  let kept := dropna (resampleDaily input_data)
  if kept.isEmpty then .error (.valueError emptyModelDataMessage)
  else
    .ok { index := kept.map (fun x => x.1),
          energy := kept.map (fun x => x.2.1),
          tempF := kept.map (fun x => x.2.2),
          CDD := kept.map (fun x => max (x.2.2 - self.cooling_base_temp) 0),
          HDD := kept.map (fun x => max (self.heating_base_temp - x.2.2) 0),
          holiday_name := none }

/-! ### seasonal.py: the static-context defect of `_holidays_indexed`

`_holidays_indexed` is declared `@staticmethod` with the single parameter
`dt_index`, yet its body reads `self.custom_holidays`.  A staticmethod
receives no instance, the module defines no global `self`, so the name is
unbound and every call raises NameError — before the calendar is chosen
and before any date is looked up.  `_patsy_formula` calls it at line 84,
so every `_patsy_formula` call raises as well, ahead of the holiday-gate
comparison and the in-place column assignment of line 88. -/

/-- With `self` bound to an instance, the body of `_holidays_indexed`
returns the cleaned holiday name of every index entry, drawn from the
custom calendar when the instance carries one and from the United States
calendar otherwise.  (This is the behaviour the surrounding code expects
of the helper; the staticmethod never reaches it.) -/
theorem holidaysIndexedBody_bound_self :
    ∀ (usHolidays : HolidayCalendar) (m : SeasonalElasticNetCVModel)
      (dt_index : List Int),
      holidaysIndexedBody usHolidays (some m) dt_index =
        Except.ok (dt_index.map
          (clean_holiday_name (m.custom_holidays.getD usHolidays))) := by
  intro usHolidays m dt_index
  unfold holidaysIndexedBody
  cases h : m.custom_holidays <;> simp [h, Option.getD]

/-- The per-date lookup semantics of `clean_holiday_name`: the calendar
name when present (with a trailing " (Observed)" stripped), the literal
"none" otherwise. -/
theorem clean_holiday_name_spec :
    ∀ (cal : HolidayCalendar) (dt : Int),
      (cal dt = none → clean_holiday_name cal dt = "none") ∧
      (∀ nm, cal dt = some nm →
        ((nm.endsWith " (Observed)" = true →
            clean_holiday_name cal dt = nm.dropRight 11) ∧
         (nm.endsWith " (Observed)" = false →
            clean_holiday_name cal dt = nm))) := by
  intro cal dt
  constructor
  · intro h
    have hsuf : ("none".endsWith " (Observed)") = false := by decide
    simp [clean_holiday_name, h, hsuf]
  · intro nm h
    constructor <;> intro hsuf <;> simp [clean_holiday_name, h, hsuf]

/-- Claim C1 (evaluation of the defective code): `_holidays_indexed` takes
no calendar argument, and the free name `self` in its staticmethod body is
unbound, so every call — for every date index and every ambient United
States calendar — raises NameError instead of returning holiday labels. -/
theorem holidays_indexed_always_nameError :
    ∀ (usHolidays : HolidayCalendar) (dt_index : List Int),
      _holidays_indexed usHolidays dt_index =
        Except.error (PyError.nameError "self") := by
  intro usHolidays dt_index
  rfl

theorem patsy_formula_eval :
    ∀ (usHolidays : HolidayCalendar) (self : SeasonalElasticNetCVModel)
      (md : ModelData),
      _patsy_formula usHolidays self md =
        (Except.error (PyError.nameError "self"), md) := by
  intro usHolidays self md
  rfl

/-- Claim C2 (evaluation of the defective code): `_patsy_formula` never
returns a formula — the call into the broken staticmethod
`_holidays_indexed` at line 84 raises NameError on every input, before
any term-group gate can decide the result. -/
theorem patsy_formula_never_returns :
    ∀ (usHolidays : HolidayCalendar) (self : SeasonalElasticNetCVModel)
      (md : ModelData),
      (_patsy_formula usHolidays self md).1 =
        Except.error (PyError.nameError "self") := by
  intro usHolidays self md
  exact congrArg Prod.fst (patsy_formula_eval usHolidays self md)

/-- An external calendar instance used for concrete counterexamples. -/
def emptyCalendar : HolidayCalendar := fun _ => none

/-- A concrete seasonal model (bases 65/65, no custom calendar, the base
formula of the elastic-net wrapper). -/
def exampleModel : SeasonalElasticNetCVModel :=
  ⟨65, 65, none, "energy ~ CDD + HDD"⟩

/-- A concrete one-row model-data table (2017-07-04, energy 5, tempF 65). -/
def exampleModelData : ModelData := ⟨[17351], [5], [65], [0], [0], none⟩

/-- Counterexample to claim C3 as stated: at a concrete table the call
does not produce a formula string (it raises NameError). -/
theorem patsy_formula_counterexample :
    ¬ ∃ s : String,
      (_patsy_formula emptyCalendar exampleModel exampleModelData).1 =
        Except.ok s := by
  rintro ⟨s, hs⟩
  rw [patsy_formula_eval emptyCalendar exampleModel exampleModelData] at hs
  exact Except.noConfusion hs

/-- Claim C3 (amended): `_patsy_formula` leaves the caller's table exactly
as it was — in particular no holiday_name column is attached — but not
because it runs to completion: every call raises NameError out of the
broken holiday indexer before the in-place assignment of line 88, so no
formula string is produced either. -/
theorem patsy_formula_table_unchanged :
    ∀ (usHolidays : HolidayCalendar) (self : SeasonalElasticNetCVModel)
      (md : ModelData),
      (_patsy_formula usHolidays self md).2 = md ∧
      (_patsy_formula usHolidays self md).1 =
        Except.error (PyError.nameError "self") := by
  intro usHolidays self md
  exact ⟨congrArg Prod.snd (patsy_formula_eval usHolidays self md),
    congrArg Prod.fst (patsy_formula_eval usHolidays self md)⟩

/-- The month and weekday gating of the formula prefix (the part of
`_patsy_formula` the exception does not reach is nevertheless faithful to
lines 66-82): the month group is appended iff at least 12 distinct
calendar months occur in the index, the weekday group iff at least 7
distinct weekdays occur, in that order after the base formula. -/
theorem formulaPrefix_gates :
    ∀ (self : SeasonalElasticNetCVModel) (md : ModelData),
      formulaPrefix self md =
        self.base_formula ++
        (if uniqueCount (md.index.map monthOf) ≥ 12 then monthTerms else "") ++
        (if uniqueCount (md.index.map weekdayOf) ≥ 7 then weekdayTerms
         else "") := by
  intro self md
  unfold formulaPrefix
  by_cases hm : uniqueCount (md.index.map monthOf) ≥ 12 <;>
    by_cases hw : uniqueCount (md.index.map weekdayOf) ≥ 7 <;>
      simp [hm, hw]

theorem dropna_map_fst (input : List InputRow) (days : List Int) :
    (dropna (days.map (fun d => (d, sumAggOn input d, meanAggOn input d)))).map
        (fun x => x.1) =
      days.filter
        (fun d => (sumAggOn input d).isSome && (meanAggOn input d).isSome) := by
  induction days with
  | nil => rfl
  | cons d ds ih =>
    simp only [dropna, List.filterMap_map] at ih ⊢
    cases hs : sumAggOn input d <;> cases hm : meanAggOn input d <;>
      simp [List.filterMap_cons, hs, hm, List.filter_cons, ih]

theorem mem_dropna_resample (input : List InputRow) (x : Int × ℚ × ℚ)
    (hx : x ∈ dropna (resampleDaily input)) :
    sumAggOn input x.1 = some x.2.1 ∧ meanAggOn input x.1 = some x.2.2 := by
  unfold dropna at hx
  obtain ⟨row, hrow, hfrow⟩ := List.mem_filterMap.1 hx
  unfold resampleDaily at hrow
  obtain ⟨d, _, rfl⟩ := List.mem_map.1 hrow
  cases hs : sumAggOn input d <;> cases hm : meanAggOn input d <;>
    rw [hs, hm] at hfrow <;> simp at hfrow
  obtain ⟨rfl, rfl, rfl⟩ := hfrow
  exact ⟨hs, hm⟩

/-- What claim C4 asserts of a successfully built model-data table: its
index is exactly the in-range days on which both daily aggregates are
defined, its energy and tempF columns carry the daily sum and the daily
mean for the day at the same position, and its CDD and HDD columns are the
max-with-zero degree days of the tempF at the same position, with no
holiday column attached by the builder. -/
def ModelDataMatches (self : SeasonalElasticNetCVModel)
    (input : List InputRow) (md : ModelData) : Prop :=
  md.index = (dayRange input).filter
      (fun d => (sumAggOn input d).isSome && (meanAggOn input d).isSome) ∧
  md.energy.length = md.index.length ∧
  md.tempF.length = md.index.length ∧
  md.CDD.length = md.index.length ∧
  md.HDD.length = md.index.length ∧
  (∀ p ∈ md.index.zip md.energy, sumAggOn input p.1 = some p.2) ∧
  (∀ p ∈ md.index.zip md.tempF, meanAggOn input p.1 = some p.2) ∧
  (∀ p ∈ md.tempF.zip md.CDD, p.2 = max (p.1 - self.cooling_base_temp) 0) ∧
  (∀ p ∈ md.tempF.zip md.HDD, p.2 = max (self.heating_base_temp - p.1) 0) ∧
  md.holiday_name = none

/-- Claim C4: every table `_model_data_from_input_data` returns is the
daily resample of its input — energy by sum, tempF by mean, rows with an
undefined aggregate dropped — with CDD = max(tempF − coolingBase, 0) and
HDD = max(heatingBase − tempF, 0) attached per row and no clamping beyond
the floor at zero. -/
theorem model_data_from_input_data_spec :
    ∀ (self : SeasonalElasticNetCVModel) (input : List InputRow)
      (md : ModelData),
      _model_data_from_input_data self input = Except.ok md →
      ModelDataMatches self input md := by
  intro self input md h
  unfold _model_data_from_input_data at h
  by_cases he : (dropna (resampleDaily input)).isEmpty
  · rw [if_pos he] at h
    exact absurd h (by simp)
  · rw [if_neg he] at h
    obtain rfl := (Except.ok.inj h).symm
    refine ⟨?_, by simp, by simp, by simp, by simp, ?_, ?_, ?_, ?_, rfl⟩
    · show (dropna (resampleDaily input)).map (fun x => x.1) = _
      unfold resampleDaily
      exact dropna_map_fst input (dayRange input)
    · intro p hp
      rw [List.zip_map'] at hp
      obtain ⟨x, hx, rfl⟩ := List.mem_map.1 hp
      exact (mem_dropna_resample input x hx).1
    · intro p hp
      rw [List.zip_map'] at hp
      obtain ⟨x, hx, rfl⟩ := List.mem_map.1 hp
      exact (mem_dropna_resample input x hx).2
    · intro p hp
      rw [List.zip_map'] at hp
      obtain ⟨x, _, rfl⟩ := List.mem_map.1 hp
      rfl
    · intro p hp
      rw [List.zip_map'] at hp
      obtain ⟨x, _, rfl⟩ := List.mem_map.1 hp
      rfl

/-- Claim C5: the builder fails — with exactly the empty-model-data
ValueError — if and only if the table left after daily resampling and
NaN-dropping has zero rows, and on every input with at least one complete
daily row it returns a table normally. -/
theorem model_data_empty_error_iff :
    ∀ (self : SeasonalElasticNetCVModel) (input : List InputRow),
      ((_model_data_from_input_data self input =
          Except.error (PyError.valueError emptyModelDataMessage)) ↔
        dropna (resampleDaily input) = []) ∧
      ((∃ md, _model_data_from_input_data self input = Except.ok md) ∨
        _model_data_from_input_data self input =
          Except.error (PyError.valueError emptyModelDataMessage)) := by
  intro self input
  unfold _model_data_from_input_data
  by_cases h : dropna (resampleDaily input) = []
  · simp [h]
  · have hne : (dropna (resampleDaily input)).isEmpty = false := by
      simpa [List.isEmpty_iff] using h
    simp [hne, h]

/-- A concrete input table: one complete sample on day 0, one all-NaN
sample on day 1. -/
def exampleInput : List InputRow :=
  [⟨0, some 2, some 65⟩, ⟨2000, none, none⟩]

/-- The model data built from `exampleInput` by `exampleModel`. -/
def exampleBuiltData : ModelData := ⟨[0], [2], [65], [0], [0], none⟩

theorem example_model_data_eval :
    _model_data_from_input_data exampleModel exampleInput =
      Except.ok exampleBuiltData := by
  have hd0 : dayOf 0 = 0 := by decide
  have hd1 : dayOf 2000 = 1 := by decide
  have hrange : dayRange exampleInput = [0, 1] := by decide
  have hsum0 : sumAggOn exampleInput 0 = some 2 := by
    unfold sumAggOn samplesOn exampleInput
    simp [hd0, hd1]
  have hsum1 : sumAggOn exampleInput 1 = none := by
    unfold sumAggOn samplesOn exampleInput
    simp [hd0, hd1]
  have hmean0 : meanAggOn exampleInput 0 = some 65 := by
    unfold meanAggOn samplesOn exampleInput
    simp [hd0, hd1]
  have hmean1 : meanAggOn exampleInput 1 = none := by
    unfold meanAggOn samplesOn exampleInput
    simp [hd0, hd1]
  have hkept : dropna (resampleDaily exampleInput) = [(0, 2, 65)] := by
    unfold resampleDaily
    rw [hrange]
    simp [dropna, hsum0, hsum1, hmean0, hmean1]
  unfold _model_data_from_input_data
  rw [hkept]
  simp [exampleBuiltData, exampleModel]

/-- Witness for C4: the builder on `exampleInput` returns
`exampleBuiltData`, which satisfies every clause of the row-wise
specification. -/
theorem model_data_from_input_data_spec_witness :
    _model_data_from_input_data exampleModel exampleInput =
      Except.ok exampleBuiltData ∧
    ModelDataMatches exampleModel exampleInput exampleBuiltData :=
  ⟨example_model_data_eval,
    model_data_from_input_data_spec exampleModel exampleInput
      exampleBuiltData example_model_data_eval⟩

end Eemeter
